import Mathlib

/-!
Shallow embedding of `src/docs/veeambackup_wtoken3.py` (a Veeam backup
daily-report script) and verification of the frozen claims about it.

Modelling conventions:
* Python dictionary fields are `Option` fields of a structure (`none` =
  key absent).  Dynamically typed JSON values are `PyVal` (number,
  string, or JSON null / Python `None`).
* Timestamps (`time.time()`, `datetime` values) are modelled as `Int`
  seconds; `timedelta(days=1)` is 86400 seconds.
* Quantities measured in GB are exact rationals (`Rat`), so Python's
  `/` on numbers is rational division.
* Stateful code passes the global token state and the `tokens.json`
  file content explicitly; HTTP responses are inputs (oracles).
* A Python exception escaping a function is `Except.error`; functions
  that cannot raise return plain values.
-/

/-- A dynamically typed JSON/Python value as it occurs in the API
payloads: a number, a string, or null (`None`). -/
inductive PyVal where
  | num : Rat → PyVal
  | str : String → PyVal
  | null : PyVal
deriving DecidableEq

/-- Python exceptions that the modelled code can raise
(`connectionError` stands for the transport-level exceptions of
`requests.post` / `requests.get`, raised before any response
exists). -/
inductive PyError where
  | typeError : PyError
  | keyError : String → PyError
  | zeroDivisionError : PyError
  | connectionError : PyError
deriving DecidableEq

/-- Python truthiness of a `PyVal` (`if cap:` etc.): `0`, `""` and
`None` are falsy. -/
def pyTruthy : PyVal → Bool
  | PyVal.num q => decide (q ≠ 0)
  | PyVal.str s => decide (s ≠ "")
  | PyVal.null => false

/-- Python truthiness of an optional string (`if access_token:`): the
value `None` and the empty string are falsy. -/
def pyTruthyStr : Option String → Bool
  | none => false
  | some s => decide (s ≠ "")

/-- Python binary `-` on two values: defined on numbers, raises
`TypeError` on a string or `None` operand. -/
def pySub : PyVal → PyVal → Except PyError PyVal
  | PyVal.num a, PyVal.num b => Except.ok (PyVal.num (a - b))
  | _, _ => Except.error PyError.typeError

/-- Python binary `/` on two values: rational division on numbers,
`ZeroDivisionError` on a zero denominator, `TypeError` on a string or
`None` operand. -/
def pyDiv : PyVal → PyVal → Except PyError PyVal
  | PyVal.num a, PyVal.num b =>
      if b = 0 then Except.error PyError.zeroDivisionError
      else Except.ok (PyVal.num (a / b))
  | _, _ => Except.error PyError.typeError

/-- Python binary `*` on two values, for number operands (the only use
in the source is `(used / cap) * 100`, whose left operand is a
number). -/
def pyMul : PyVal → PyVal → Except PyError PyVal
  | PyVal.num a, PyVal.num b => Except.ok (PyVal.num (a * b))
  | _, _ => Except.error PyError.typeError

/-- The module-level mutable token state: the globals `access_token`,
`refresh_token`, `token_expiry` (lines 26-28 of the source). -/
structure TokenState where
  access_token : Option String
  refresh_token : Option String
  token_expiry : Option Int
deriving DecidableEq

/-- The parsed content of `tokens.json`: the credential triple that
`save_tokens` serialises (lines 30-36). -/
structure TokenFile where
  access_token : Option String
  refresh_token : Option String
  token_expiry : Option Int
deriving DecidableEq

/-- The file system as seen by the script: either `tokens.json` is
absent (`none`) or holds a credential triple. -/
abbrev FileSys := Option TokenFile

/-- `save_tokens` (lines 30-36): overwrite `tokens.json` with the
current global credential triple, in full. -/
def save_tokens (st : TokenState) (_fs : FileSys) : FileSys :=
  some { access_token := st.access_token,
         refresh_token := st.refresh_token,
         token_expiry := st.token_expiry }

/-- `load_tokens` (lines 38-47): if `tokens.json` exists, replace the
three globals with the stored triple (the Python
`float(token_expiry)` conversion is the identity in the integer
timestamp model); otherwise leave the globals unchanged. -/
def load_tokens (fs : FileSys) (st : TokenState) : TokenState :=
  match fs with
  | none => st
  | some f => { access_token := f.access_token,
                refresh_token := f.refresh_token,
                token_expiry := f.token_expiry }

/-- The JSON body of a successful authentication response:
`{access_token, refresh_token, expires_in}` as read by
`get_access_token` via `data.get(...)`. -/
structure AuthData where
  access_token : Option String
  refresh_token : Option String
  expires_in : Option Int
deriving DecidableEq

/-- An HTTP response from the authentication endpoint: a status code
and (for the 200 branch) the decoded JSON body. -/
structure AuthResponse where
  status : Nat
  body : AuthData
deriving DecidableEq

/-- The outcome of `get_access_token`: the returned value, the new
global token state, the new file system, and whether the non-200
error branch ran (logging the status code and body). -/
structure AuthResult where
  retVal : Option String
  state : TokenState
  fs : FileSys
  loggedError : Bool
deriving DecidableEq

/-- `get_access_token` (lines 59-86): POST the password grant; on
HTTP 200 set the three globals (`token_expiry` is the current time
plus `expires_in`, defaulting to 3600), persist them with
`save_tokens`, and return the access token; on any other status log
an error and return `None`, leaving globals and file untouched. -/
def get_access_token (resp : AuthResponse) (now : Int) (st : TokenState)
    (fs : FileSys) : AuthResult :=
  if resp.status = 200 then
    let st' : TokenState :=
      { access_token := resp.body.access_token,
        refresh_token := resp.body.refresh_token,
        token_expiry := some (now + resp.body.expires_in.getD 3600) }
    { retVal := st'.access_token, state := st', fs := save_tokens st' fs,
      loggedError := false }
  else
    { retVal := none, state := st, fs := fs, loggedError := true }

/-- The outcome of `make_authenticated_request`: the returned value
(`some` decoded body on a 200 GET, else `none`), the new global token
state and file system, whether `get_access_token` was invoked, and —
when the GET was actually issued — the bearer token attached to it. -/
structure MarResult (α : Type) where
  retVal : Option α
  state : TokenState
  fs : FileSys
  reacquired : Bool
  getIssuedWith : Option String
deriving DecidableEq

/-- The body of `make_authenticated_request` after the refresh
decision (lines 92-110): if the (possibly refreshed) global access
token is truthy, issue the GET with it attached as bearer credential,
returning the decoded body on HTTP 200 and `None` on any other
status; with no truthy token, log and return `None` without issuing
the GET. -/
def issue_get {α : Type} (getStatus : Nat) (getBody : α) (st1 : TokenState)
    (fs1 : FileSys) (reacq : Bool) : MarResult α :=
  match st1.access_token with
  | some tok =>
    if tok = "" then
      { retVal := none, state := st1, fs := fs1, reacquired := reacq,
        getIssuedWith := none }
    else if getStatus = 200 then
      { retVal := some getBody, state := st1, fs := fs1, reacquired := reacq,
        getIssuedWith := some tok }
    else
      { retVal := none, state := st1, fs := fs1, reacquired := reacq,
        getIssuedWith := some tok }
  | none =>
    { retVal := none, state := st1, fs := fs1, reacquired := reacq,
      getIssuedWith := none }

/-- `make_authenticated_request` (lines 88-110): if no access token is
cached or the current time exceeds the cached expiry, call
`get_access_token` first (the Python comparison `time.time() >
token_expiry` raises `TypeError` when a token is cached but
`token_expiry` is `None`; the `or` short-circuits, so a missing token
never reaches that comparison); then proceed as `issue_get` with the
resulting global state. -/
def make_authenticated_request {α : Type} (authResp : AuthResponse)
    (getStatus : Nat) (getBody : α) (now : Int) (st : TokenState)
    (fs : FileSys) : Except PyError (MarResult α) :=
  match st.access_token, st.token_expiry with
  | none, _ =>
    let r := get_access_token authResp now st fs
    Except.ok (issue_get getStatus getBody r.state r.fs true)
  | some _, none => Except.error PyError.typeError
  | some _, some e =>
    if now > e then
      let r := get_access_token authResp now st fs
      Except.ok (issue_get getStatus getBody r.state r.fs true)
    else
      Except.ok (issue_get getStatus getBody st fs false)

/-- Claim C8: saving the cached credential triple with `save_tokens`
and reloading it with `load_tokens` reproduces an identical access
token, refresh token, and expiry value in the cached state. -/
theorem save_load_roundtrip (st st₀ : TokenState) (fs : FileSys) :
    load_tokens (save_tokens st fs) st₀ = st := by
  simp [save_tokens, load_tokens]

/-- Claim C2: on any non-200 authentication response (in particular
HTTP 401), `get_access_token` returns `None` and the token file is
not written. -/
theorem auth_failure_no_write (resp : AuthResponse) (now : Int)
    (st : TokenState) (fs : FileSys) (h : resp.status ≠ 200) :
    (get_access_token resp now st fs).retVal = none ∧
    (get_access_token resp now st fs).fs = fs := by
  simp [get_access_token, h]

/-- Witness for C2 at HTTP 401 with an empty file system. -/
theorem auth_failure_no_write_witness :
    (get_access_token ⟨401, ⟨none, none, none⟩⟩ 0 ⟨none, none, none⟩ none).retVal
        = none ∧
    (get_access_token ⟨401, ⟨none, none, none⟩⟩ 0 ⟨none, none, none⟩ none).fs
        = none :=
  auth_failure_no_write ⟨401, ⟨none, none, none⟩⟩ 0 ⟨none, none, none⟩ none
    (by decide)

/-- Claim C10: on any non-200 authentication response the in-memory
cached credential triple (the three globals) is left exactly as it
was; only the HTTP 200 branch mutates it. -/
theorem auth_failure_frame (resp : AuthResponse) (now : Int)
    (st : TokenState) (fs : FileSys) (h : resp.status ≠ 200) :
    (get_access_token resp now st fs).state = st := by
  simp [get_access_token, h]

/-- Witness for C10 at HTTP 500 with a populated cached triple. -/
theorem auth_failure_frame_witness :
    (get_access_token ⟨500, ⟨some "a", some "r", some 99⟩⟩ 7
        ⟨some "old", some "oldr", some 3⟩ none).state
      = ⟨some "old", some "oldr", some 3⟩ :=
  auth_failure_frame ⟨500, ⟨some "a", some "r", some 99⟩⟩ 7
    ⟨some "old", some "oldr", some 3⟩ none (by decide)


/-- Helper: `issue_get` records the refresh flag it was given. -/
theorem issue_get_reacquired {α : Type} (gs : Nat) (gb : α) (st1 : TokenState)
    (fs1 : FileSys) (reacq : Bool) :
    (issue_get gs gb st1 fs1 reacq).reacquired = reacq := by
  unfold issue_get
  cases st1.access_token with
  | none => rfl
  | some tok =>
    by_cases h : tok = "" <;> by_cases hg : gs = 200 <;> simp [h, hg]

/-- Helper: a GET is only issued with the truthy cached access token of
the state `issue_get` ran in. -/
theorem issue_get_token {α : Type} (gs : Nat) (gb : α) (st1 : TokenState)
    (fs1 : FileSys) (reacq : Bool) (tok : String)
    (h : (issue_get gs gb st1 fs1 reacq).getIssuedWith = some tok) :
    tok ≠ "" ∧ st1.access_token = some tok := by
  unfold issue_get at h
  cases hat : st1.access_token with
  | none => rw [hat] at h; simp at h
  | some t =>
    rw [hat] at h
    by_cases ht : t = ""
    · simp [ht] at h
    · by_cases hg : gs = 200 <;> simp [ht, hg] at h <;> exact h ▸ ⟨ht, rfl⟩

/-- Claim C1: whenever no access token is cached or the current time
exceeds the cached expiry, `make_authenticated_request` performs a
full password-grant re-acquisition via `get_access_token` before the
GET is issued; and the GET is only ever issued with a token the code
considers valid attached — a truthy token that was either just
(re-)acquired or is cached and unexpired. -/
theorem authenticated_request_token_valid {α : Type} (authResp : AuthResponse)
    (getStatus : Nat) (getBody : α) (now : Int) (st : TokenState)
    (fs : FileSys) :
    ((st.access_token = none ∨ (∃ e, st.token_expiry = some e ∧ e < now)) →
      ∃ r, make_authenticated_request authResp getStatus getBody now st fs
              = Except.ok r ∧ r.reacquired = true) ∧
    (∀ r tok,
      make_authenticated_request authResp getStatus getBody now st fs
          = Except.ok r →
      r.getIssuedWith = some tok →
      tok ≠ "" ∧
        (r.reacquired = true ∨
          (st.access_token = some tok ∧
            ∃ e, st.token_expiry = some e ∧ now ≤ e))) := by
  constructor
  · intro h
    cases hat : st.access_token with
    | none =>
      refine ⟨issue_get getStatus getBody (get_access_token authResp now st fs).state
          (get_access_token authResp now st fs).fs true, ?_, issue_get_reacquired ..⟩
      simp [make_authenticated_request, hat]
    | some t =>
      rcases h with h | ⟨e, he, hlt⟩
      · rw [hat] at h; cases h
      · refine ⟨issue_get getStatus getBody (get_access_token authResp now st fs).state
            (get_access_token authResp now st fs).fs true, ?_, issue_get_reacquired ..⟩
        simp [make_authenticated_request, hat, he, hlt]
  · intro r tok hr hissued
    cases hat : st.access_token with
    | none =>
      simp only [make_authenticated_request, hat] at hr
      rw [Except.ok.injEq] at hr
      subst hr
      exact ⟨(issue_get_token _ _ _ _ _ _ hissued).1,
        Or.inl (issue_get_reacquired ..)⟩
    | some t0 =>
      cases hte : st.token_expiry with
      | none =>
        simp only [make_authenticated_request, hat, hte] at hr
        exact absurd hr (by simp)
      | some e =>
        simp only [make_authenticated_request, hat, hte] at hr
        by_cases hnow : now > e
        · rw [if_pos hnow, Except.ok.injEq] at hr
          subst hr
          exact ⟨(issue_get_token _ _ _ _ _ _ hissued).1,
            Or.inl (issue_get_reacquired ..)⟩
        · rw [if_neg hnow, Except.ok.injEq] at hr
          subst hr
          obtain ⟨htok, hatok⟩ := issue_get_token _ _ _ _ _ _ hissued
          exact ⟨htok, Or.inr ⟨hat.symm ▸ hatok, e, rfl, le_of_not_lt hnow⟩⟩

/-- Witness for C1: with no cached token and a failing auth endpoint,
the request path still performs the re-acquisition first. -/
theorem authenticated_request_token_valid_witness :
    ∃ r, make_authenticated_request ⟨401, ⟨none, none, none⟩⟩ 200 (0 : Nat) 5
            ⟨none, none, none⟩ none = Except.ok r ∧ r.reacquired = true :=
  (authenticated_request_token_valid ⟨401, ⟨none, none, none⟩⟩ 200 (0 : Nat) 5
      ⟨none, none, none⟩ none).1 (Or.inl rfl)

/-- A job record from the `jobs/states` payload, as the fields the
script reads: `name`, `lastResult`, `lastRun` (a raw timestamp
string), `message`.  `none` = key absent from the dictionary. -/
structure Job where
  name : Option PyVal
  lastResult : Option PyVal
  lastRun : Option String
  message : Option PyVal
deriving DecidableEq

/-- A repository record from the `repositories/states` payload, as the
fields the script reads.  `none` = key absent from the dictionary. -/
structure Repo where
  name : Option PyVal
  path : Option PyVal
  capacityGB : Option PyVal
  freeGB : Option PyVal
  usedSpaceGB : Option PyVal
deriving DecidableEq

/-- `get_failed_jobs` (lines 159-169): keep the jobs whose `lastRun`
parses (`datetime.fromisoformat` applied to `job.get('lastRun')`; a
missing key or unparsable string raises inside the `try` and the job
is skipped by `continue`), whose `lastResult` differs from
`"Success"`, and whose parsed `lastRun` lies in the closed window
`[now - 1 day, now + 1 day]`.  The ISO-timestamp parser is passed in
as `parse` (library code, not repository code); parsed timestamps and
`now` are absolute seconds. -/
def get_failed_jobs (parse : Option String → Option Int) (now : Int)
    (jobs : List Job) : List Job :=
  jobs.filter fun job =>
    match parse job.lastRun with
    | none => false
    | some lr =>
      decide (job.lastResult ≠ some (PyVal.str "Success")) &&
        (decide (now - 86400 ≤ lr) && decide (lr ≤ now + 86400))

/-- One repository entry of the report (lines 182-192): `cap` and
`used` default to `0` for an absent key; total and used space are
converted GB→TB by dividing by 1024 and the utilization percentage is
`used / cap * 100`, each guarded by the truthiness of `cap` (falsy
`cap` yields `0` instead of dividing). -/
structure RepoEntry where
  name : PyVal
  path : PyVal
  total_tb : PyVal
  used_tb : PyVal
  pct : PyVal
deriving DecidableEq

/-- The repository part of `generate_report_text` (lines 181-192),
for one repository record. -/
def repoEntry (repo : Repo) : Except PyError RepoEntry := do
  let cap := repo.capacityGB.getD (PyVal.num 0)
  let used := repo.usedSpaceGB.getD (PyVal.num 0)
  let total_tb ← if pyTruthy cap then pyDiv cap (PyVal.num 1024)
                 else pure (PyVal.num 0)
  let used_tb ← if pyTruthy cap then pyDiv used (PyVal.num 1024)
                else pure (PyVal.num 0)
  let pct ← if pyTruthy cap then do
              let q ← pyDiv used cap
              pyMul q (PyVal.num 100)
            else pure (PyVal.num 0)
  pure { name := repo.name.getD (PyVal.str ""),
         path := repo.path.getD (PyVal.str ""),
         total_tb := total_tb, used_tb := used_tb, pct := pct }

/-- One item of the failed-jobs detail list (lines 198-201): the job
name is read with `j['name']` (raising `KeyError` when absent), the
message with `j.get('message', 'No details available')`. -/
structure FailedDetail where
  name : PyVal
  message : PyVal
deriving DecidableEq

/-- The structured content of the two report text blocks built by
`generate_report_text` (the source interpolates these values into
formatted strings; the numeric and list content is modelled, the
surrounding literal text is not). -/
structure Report where
  total : Nat
  statusCounts : List (PyVal × Nat)
  failedCount : Nat
  failedDetails : List FailedDetail
  repoEntries : List RepoEntry
deriving DecidableEq

/-- `pd.Series(statuses).value_counts()` (line 174): for each distinct
status value, the number of jobs carrying it. -/
def value_counts (xs : List PyVal) : List (PyVal × Nat) :=
  xs.dedup.map fun s => (s, xs.count s)

/-- The status extraction of line 174, for one job: `j['lastResult']`
raises `KeyError` when the key is absent. -/
def statusOf (j : Job) : Except PyError PyVal :=
  match j.lastResult with
  | some v => pure v
  | none => throw (PyError.keyError "lastResult")

/-- One item of the failed-jobs detail list (lines 198-201) for one
failed job: `j['name']` raises `KeyError` when the key is absent,
the message is `j.get('message', 'No details available')`. -/
def detailOf (j : Job) : Except PyError FailedDetail :=
  match j.name with
  | some v =>
    pure (FailedDetail.mk v (j.message.getD (PyVal.str "No details available")))
  | none => throw (PyError.keyError "name")

/-- `generate_report_text` (lines 171-205): the status summary reads
`j['lastResult']` of every job via `statusOf`, the failed list comes
from `get_failed_jobs`, each repository entry from `repoEntry`, and —
only when the failed count is nonzero — the detail list reads
`j['name']` of every failed job via `detailOf`. -/
def generate_report_text (parse : Option String → Option Int) (now : Int)
    (jobs : List Job) (repos : List Repo) : Except PyError Report := do
  let total := jobs.length
  let statuses ← jobs.mapM statusOf
  let counts := value_counts statuses
  let failed_list := get_failed_jobs parse now jobs
  let failed_count := failed_list.length
  let entries ← repos.mapM repoEntry
  let details ←
    if failed_count ≠ 0 then failed_list.mapM detailOf
    else pure []
  pure { total := total, statusCounts := counts, failedCount := failed_count,
         failedDetails := details, repoEntries := entries }

/-- The `usedSpaceGB` derivation of the `__main__` block (lines
238-243): `r['usedSpaceGB'] = r.get('capacityGB', 0) - r.get('freeGB',
0)`, with the `except` branch falling back to
`r.get('usedSpaceGB', 0)` when the subtraction raises. -/
def deriveUsedSpace (r : Repo) : Repo :=
  match pySub (r.capacityGB.getD (PyVal.num 0)) (r.freeGB.getD (PyVal.num 0)) with
  | Except.ok v => { r with usedSpaceGB := some v }
  | Except.error _ => { r with usedSpaceGB := some (r.usedSpaceGB.getD (PyVal.num 0)) }

/-- Helper: `bind` of a successful `Except` computation. -/
theorem pyBind_ok {α β : Type} (a : α) (f : α → Except PyError β) :
    (Except.ok a : Except PyError α) >>= f = f a := rfl

/-- Claim C3: for a repository whose `capacityGB` is zero or absent,
the derived figures of its report entry — total TB, used TB and
utilization percentage — all equal 0, and no division-by-zero error
occurs (the entry is produced successfully). -/
theorem zero_capacity_all_zero (r : Repo)
    (h : r.capacityGB = none ∨ r.capacityGB = some (PyVal.num 0)) :
    ∃ e, repoEntry r = Except.ok e ∧ e.total_tb = PyVal.num 0 ∧
      e.used_tb = PyVal.num 0 ∧ e.pct = PyVal.num 0 := by
  have hcap : r.capacityGB.getD (PyVal.num 0) = PyVal.num 0 := by
    rcases h with h | h <;> simp [h]
  refine ⟨{ name := r.name.getD (PyVal.str ""), path := r.path.getD (PyVal.str ""),
            total_tb := PyVal.num 0, used_tb := PyVal.num 0, pct := PyVal.num 0 },
          ?_, rfl, rfl, rfl⟩
  simp [repoEntry, hcap, pyTruthy, pyBind_ok]
  rfl

/-- Witness for C3: a repository with `capacityGB` 0 and garbage in
the other fields yields all-zero derived figures. -/
theorem zero_capacity_all_zero_witness :
    ∃ e, repoEntry ⟨some (PyVal.str "R"), some (PyVal.str "/p"),
        some (PyVal.num 0), some (PyVal.str "x"), some (PyVal.str "y")⟩
          = Except.ok e ∧
      e.total_tb = PyVal.num 0 ∧ e.used_tb = PyVal.num 0 ∧ e.pct = PyVal.num 0 :=
  zero_capacity_all_zero _ (Or.inr rfl)

/-- Claim C4: a job whose `lastRun` does not parse as a timestamp
(including an absent key) never appears in the failed-jobs list; the
parse failure is swallowed by the `try`/`continue`. -/
theorem unparsable_lastRun_excluded (parse : Option String → Option Int)
    (now : Int) (jobs : List Job) (job : Job)
    (h : parse job.lastRun = none) :
    job ∉ get_failed_jobs parse now jobs := by
  intro hmem
  rw [get_failed_jobs, List.mem_filter] at hmem
  have h2 := hmem.2
  rw [h] at h2
  simp at h2

/-- Witness for C4: a failed-looking job with an unparsable `lastRun`
is excluded even though it is in the input list. -/
theorem unparsable_lastRun_excluded_witness :
    (⟨some (PyVal.str "J"), some (PyVal.str "Failed"), some "garbage", none⟩ : Job)
      ∉ get_failed_jobs (fun _ => none) 0
        [⟨some (PyVal.str "J"), some (PyVal.str "Failed"), some "garbage", none⟩] :=
  unparsable_lastRun_excluded (fun _ => none) 0 _ _ rfl

/-- Claim C5: a job whose `lastResult` equals `"Success"` never
appears in the failed-jobs list, regardless of its `lastRun`
timestamp. -/
theorem success_job_excluded (parse : Option String → Option Int)
    (now : Int) (jobs : List Job) (job : Job)
    (h : job.lastResult = some (PyVal.str "Success")) :
    job ∉ get_failed_jobs parse now jobs := by
  intro hmem
  rw [get_failed_jobs, List.mem_filter] at hmem
  have h2 := hmem.2
  cases hp : parse job.lastRun with
  | none => rw [hp] at h2; simp at h2
  | some lr => rw [hp] at h2; simp [h] at h2

/-- Witness for C5: a `"Success"` job whose `lastRun` parses to the
current time is still excluded. -/
theorem success_job_excluded_witness :
    (⟨some (PyVal.str "J"), some (PyVal.str "Success"), some "t", none⟩ : Job)
      ∉ get_failed_jobs (fun _ => some 5) 5
        [⟨some (PyVal.str "J"), some (PyVal.str "Success"), some "t", none⟩] :=
  success_job_excluded (fun _ => some 5) 5 _ _ rfl

/-- Claim C6: a job with `lastResult ≠ "Success"` and a parsable
`lastRun` inside the closed window `[now - 1 day, now + 1 day]` —
in particular `lastRun = now` — appears in the failed-jobs list;
both window endpoints are inclusive. -/
theorem failed_job_in_window_included (parse : Option String → Option Int)
    (now : Int) (jobs : List Job) (job : Job) (t : Int)
    (hmem : job ∈ jobs)
    (hres : job.lastResult ≠ some (PyVal.str "Success"))
    (hparse : parse job.lastRun = some t)
    (hlo : now - 86400 ≤ t) (hhi : t ≤ now + 86400) :
    job ∈ get_failed_jobs parse now jobs := by
  rw [get_failed_jobs, List.mem_filter]
  refine ⟨hmem, ?_⟩
  rw [hparse]
  simp [hres, hlo, hhi]

/-- Witness for C6: a non-`"Success"` job whose `lastRun` parses to
exactly the current time is included. -/
theorem failed_job_in_window_included_witness :
    (⟨some (PyVal.str "J"), some (PyVal.str "Failed"), some "t", none⟩ : Job)
      ∈ get_failed_jobs (fun _ => some 5) 5
        [⟨some (PyVal.str "J"), some (PyVal.str "Failed"), some "t", none⟩] :=
  failed_job_in_window_included (fun _ => some 5) 5 _ _ 5
    (List.mem_singleton.mpr rfl) (by decide) rfl (by decide) (by decide)

/-- Claim C7: the `__main__` loop sets each fetched repository's
`usedSpaceGB` to `capacityGB - freeGB` (absent keys defaulting to 0);
when the subtraction raises, it falls back to the record's existing
`usedSpaceGB` (default 0); and in particular capacity 1024 with free
512 yields 512. -/
theorem derive_used_space_spec :
    (∀ (r : Repo) (a b : Rat),
      r.capacityGB.getD (PyVal.num 0) = PyVal.num a →
      r.freeGB.getD (PyVal.num 0) = PyVal.num b →
      (deriveUsedSpace r).usedSpaceGB = some (PyVal.num (a - b))) ∧
    (∀ (r : Repo) (err : PyError),
      pySub (r.capacityGB.getD (PyVal.num 0)) (r.freeGB.getD (PyVal.num 0))
          = Except.error err →
      (deriveUsedSpace r).usedSpaceGB = some (r.usedSpaceGB.getD (PyVal.num 0))) ∧
    (deriveUsedSpace ⟨some (PyVal.str "R1"), none, some (PyVal.num 1024),
        some (PyVal.num 512), none⟩).usedSpaceGB = some (PyVal.num 512) := by
  refine ⟨?_, ?_, ?_⟩
  · intro r a b hc hf
    simp [deriveUsedSpace, hc, hf, pySub]
  · intro r err herr
    simp [deriveUsedSpace, herr]
  · simp [deriveUsedSpace, pySub]
    norm_num

/-- Witness for C7: a repository with numeric capacity 10 and free 4
gets `usedSpaceGB` 6. -/
theorem derive_used_space_spec_witness :
    (deriveUsedSpace ⟨none, none, some (PyVal.num 10), some (PyVal.num 4),
        none⟩).usedSpaceGB = some (PyVal.num 6) := by
  have h := derive_used_space_spec.1
    ⟨none, none, some (PyVal.num 10), some (PyVal.num 4), none⟩ 10 4 rfl rfl
  rw [h]
  norm_num

/-- Counterexample for C9: a failed job lacking `name` (non-Success
result, `lastRun` parsing to the current time) makes
`generate_report_text` raise an uncaught `KeyError` instead of
producing a partial report. -/
theorem report_missing_name_raises :
    generate_report_text (fun _ => some 0) 0
        [⟨none, some (PyVal.str "Failed"), some "ts", none⟩] []
      = Except.error (PyError.keyError "name") := by
  rfl

/-- Whether an optional dictionary value is a number or absent (the
shapes under which the source's arithmetic on `capacityGB` /
`usedSpaceGB` cannot raise `TypeError`). -/
def numericOrAbsent : Option PyVal → Bool
  | none => true
  | some (PyVal.num _) => true
  | some _ => false

/-- Helper: `pure` in the `Except` monad is `Except.ok`. -/
theorem pyPure {α : Type} (a : α) : (pure a : Except PyError α) = Except.ok a := rfl

/-- Helper: a repository entry is produced without an exception
whenever `capacityGB` and `usedSpaceGB` are numeric or absent. -/
theorem repoEntry_ok (r : Repo) (hc : numericOrAbsent r.capacityGB = true)
    (hu : numericOrAbsent r.usedSpaceGB = true) :
    ∃ e, repoEntry r = Except.ok e := by
  obtain ⟨a, ha⟩ : ∃ a, r.capacityGB.getD (PyVal.num 0) = PyVal.num a := by
    cases hcv : r.capacityGB with
    | none => exact ⟨0, by simp [hcv]⟩
    | some v =>
      cases v with
      | num q => exact ⟨q, by simp [hcv]⟩
      | str s => rw [hcv] at hc; simp [numericOrAbsent] at hc
      | null => rw [hcv] at hc; simp [numericOrAbsent] at hc
  obtain ⟨u, hu'⟩ : ∃ u, r.usedSpaceGB.getD (PyVal.num 0) = PyVal.num u := by
    cases huv : r.usedSpaceGB with
    | none => exact ⟨0, by simp [huv]⟩
    | some v =>
      cases v with
      | num q => exact ⟨q, by simp [huv]⟩
      | str s => rw [huv] at hu; simp [numericOrAbsent] at hu
      | null => rw [huv] at hu; simp [numericOrAbsent] at hu
  by_cases hq : a = 0
  · subst hq
    refine ⟨⟨r.name.getD (PyVal.str ""), r.path.getD (PyVal.str ""),
        PyVal.num 0, PyVal.num 0, PyVal.num 0⟩, ?_⟩
    simp [repoEntry, ha, hu', pyTruthy, pyBind_ok, pyPure]
  · refine ⟨⟨r.name.getD (PyVal.str ""), r.path.getD (PyVal.str ""),
        PyVal.num (a / 1024), PyVal.num (u / 1024), PyVal.num (u / a * 100)⟩, ?_⟩
    simp [repoEntry, ha, hu', pyTruthy, hq, pyDiv, pyMul, pyBind_ok, pyPure]

/-- Helper: mapping a fallible step over a list succeeds when it
succeeds on every element. -/
theorem mapM_ok {α β : Type} (f : α → Except PyError β) (l : List α)
    (h : ∀ a ∈ l, ∃ b, f a = Except.ok b) :
    ∃ l', l.mapM f = Except.ok l' := by
  induction l with
  | nil => exact ⟨[], rfl⟩
  | cons a t ih =>
    obtain ⟨b, hb⟩ := h a (List.mem_cons_self a t)
    obtain ⟨t', ht⟩ := ih fun x hx => h x (List.mem_cons_of_mem a hx)
    refine ⟨b :: t', ?_⟩
    rw [List.mapM_cons, hb, ht]
    rfl

/-- A value returned by `datetime.fromisoformat`: either timezone-aware
(an absolute timestamp, comparable with the aware
`datetime.now().astimezone()` of line 161) or timezone-naive (a
wall-clock reading that Python refuses to compare with an aware
datetime). -/
inductive PyDatetime where
  | aware : Int → PyDatetime
  | naive : Int → PyDatetime
deriving DecidableEq

/-- `get_failed_jobs` (lines 159-169) with the timezone behaviour of
the chained comparison on line 167 made explicit: the comparison sits
outside the `try` of lines 163-166, so after the `and` short-circuit
(a `"Success"` job never reaches the comparison) a timezone-naive
parsed `lastRun` raises an uncaught `TypeError` against the aware
`now`; an aware one is compared with `≤` on both window endpoints.
The approved integer-timestamp `get_failed_jobs` is the restriction
of this function to aware parses (`get_failed_jobs_tz_aware`). -/
def get_failed_jobs_tz (parse : Option String → Option PyDatetime) (now : Int) :
    List Job → Except PyError (List Job)
  | [] => Except.ok []
  | job :: rest =>
    match parse job.lastRun with
    | none => get_failed_jobs_tz parse now rest
    | some dt =>
      if job.lastResult = some (PyVal.str "Success") then
        get_failed_jobs_tz parse now rest
      else
        match dt with
        | PyDatetime.naive _ => Except.error PyError.typeError
        | PyDatetime.aware lr =>
          if now - 86400 ≤ lr ∧ lr ≤ now + 86400 then
            (get_failed_jobs_tz parse now rest).map (job :: ·)
          else get_failed_jobs_tz parse now rest

/-- `generate_report_text` (lines 171-205) over the
timezone-faithful failed-job detection: identical to
`generate_report_text` except that the `get_failed_jobs` call of line
175 can propagate the line-167 `TypeError`. -/
def generate_report_text_tz (parse : Option String → Option PyDatetime)
    (now : Int) (jobs : List Job) (repos : List Repo) :
    Except PyError Report := do
  let total := jobs.length
  let statuses ← jobs.mapM statusOf
  let counts := value_counts statuses
  let failed_list ← get_failed_jobs_tz parse now jobs
  let failed_count := failed_list.length
  let entries ← repos.mapM repoEntry
  let details ←
    if failed_count ≠ 0 then failed_list.mapM detailOf
    else pure []
  pure { total := total, statusCounts := counts, failedCount := failed_count,
         failedDetails := details, repoEntries := entries }

/-- `issue_get` with the `requests.get` transport made fallible: the
GET of line 98 is only attempted with a truthy token, and a transport
exception raised there propagates uncaught. -/
def issue_get_net {α : Type} (getT : Except PyError (Nat × α))
    (st1 : TokenState) (fs1 : FileSys) (reacq : Bool) :
    Except PyError (MarResult α) :=
  match st1.access_token with
  | some tok =>
    if tok = "" then
      Except.ok { retVal := none, state := st1, fs := fs1, reacquired := reacq,
                  getIssuedWith := none }
    else do
      let g ← getT
      if g.1 = 200 then
        Except.ok { retVal := some g.2, state := st1, fs := fs1,
                    reacquired := reacq, getIssuedWith := some tok }
      else
        Except.ok { retVal := none, state := st1, fs := fs1, reacquired := reacq,
                    getIssuedWith := some tok }
  | none =>
    Except.ok { retVal := none, state := st1, fs := fs1, reacquired := reacq,
                getIssuedWith := none }

/-- `make_authenticated_request` (lines 88-110) with both transports
made fallible: `authT` is the outcome of the `requests.post` of line
71 (only consulted when a refresh is attempted), `getT` that of the
`requests.get` of line 98 (only consulted when the GET is issued);
a transport exception propagates uncaught.  The approved
response-as-oracle `make_authenticated_request` is the restriction of
this function to delivered responses (`mar_net_ok`). -/
def make_authenticated_request_net {α : Type}
    (authT : Except PyError AuthResponse) (getT : Except PyError (Nat × α))
    (now : Int) (st : TokenState) (fs : FileSys) :
    Except PyError (MarResult α) :=
  match st.access_token, st.token_expiry with
  | none, _ => do
    let a ← authT
    let r := get_access_token a now st fs
    issue_get_net getT r.state r.fs true
  | some _, none => Except.error PyError.typeError
  | some _, some e =>
    if now > e then do
      let a ← authT
      let r := get_access_token a now st fs
      issue_get_net getT r.state r.fs true
    else issue_get_net getT st fs false

/-- Helper: with a delivered GET response, `issue_get_net` is exactly
`issue_get`. -/
theorem issue_get_net_ok {α : Type} (gs : Nat) (gb : α) (st1 : TokenState)
    (fs1 : FileSys) (reacq : Bool) :
    issue_get_net (Except.ok (gs, gb)) st1 fs1 reacq
      = Except.ok (issue_get gs gb st1 fs1 reacq) := by
  unfold issue_get_net issue_get
  cases st1.access_token with
  | none => rfl
  | some tok =>
    by_cases h : tok = "" <;> by_cases hg : gs = 200 <;>
      simp [h, hg, pyBind_ok, pyPure]

/-- Helper: with delivered responses on both transports,
`make_authenticated_request_net` is exactly the approved
`make_authenticated_request`. -/
theorem mar_net_ok {α : Type} (a : AuthResponse) (gs : Nat) (gb : α)
    (n : Int) (st : TokenState) (fs : FileSys) :
    make_authenticated_request_net (Except.ok a) (Except.ok (gs, gb)) n st fs
      = make_authenticated_request a gs gb n st fs := by
  cases hat : st.access_token with
  | none =>
    simp only [make_authenticated_request_net, make_authenticated_request, hat,
      pyBind_ok, issue_get_net_ok]
  | some t =>
    cases hte : st.token_expiry with
    | none =>
      simp only [make_authenticated_request_net, make_authenticated_request,
        hat, hte]
    | some e =>
      by_cases hn : n > e <;>
        simp only [make_authenticated_request_net, make_authenticated_request,
          hat, hte, hn, if_true, if_false, ite_true, ite_false, pyBind_ok,
          issue_get_net_ok]

/-- Helper: the request path returns without raising whenever both
transports deliver and a cached token comes with a cached expiry. -/
theorem mar_ok_of_consistent {α : Type} (a : AuthResponse) (gs : Nat) (gb : α)
    (n : Int) (st : TokenState) (fs : FileSys)
    (h : st.access_token = none ∨ st.token_expiry.isSome = true) :
    ∃ r, make_authenticated_request a gs gb n st fs = Except.ok r := by
  cases hat : st.access_token with
  | none =>
    refine ⟨issue_get gs gb (get_access_token a n st fs).state
        (get_access_token a n st fs).fs true, ?_⟩
    simp [make_authenticated_request, hat]
  | some t =>
    rcases h with h | h
    · rw [hat] at h; cases h
    · obtain ⟨e, he⟩ := Option.isSome_iff_exists.mp h
      by_cases hn : n > e
      · refine ⟨issue_get gs gb (get_access_token a n st fs).state
            (get_access_token a n st fs).fs true, ?_⟩
        simp [make_authenticated_request, hat, he, hn]
      · refine ⟨issue_get gs gb st fs false, ?_⟩
        simp [make_authenticated_request, hat, he, hn]

/-- Helper: failed-job detection returns without raising whenever no
non-`"Success"` job's `lastRun` parses to a timezone-naive
datetime. -/
theorem get_failed_jobs_tz_ok (parse : Option String → Option PyDatetime)
    (now : Int) (jobs : List Job)
    (htz : ∀ j ∈ jobs, j.lastResult ≠ some (PyVal.str "Success") →
        ∀ t, parse j.lastRun ≠ some (PyDatetime.naive t)) :
    ∃ fl, get_failed_jobs_tz parse now jobs = Except.ok fl := by
  induction jobs with
  | nil => exact ⟨[], rfl⟩
  | cons j rest ih =>
    obtain ⟨fl, hfl⟩ := ih fun x hx => htz x (List.mem_cons_of_mem _ hx)
    cases hp : parse j.lastRun with
    | none =>
      refine ⟨fl, ?_⟩
      simp only [get_failed_jobs_tz, hp]
      exact hfl
    | some dt =>
      by_cases hs : j.lastResult = some (PyVal.str "Success")
      · refine ⟨fl, ?_⟩
        simp only [get_failed_jobs_tz, hp]
        rw [if_pos hs]
        exact hfl
      · cases dt with
        | naive t => exact absurd hp (htz j (List.mem_cons_self j rest) hs t)
        | aware t =>
          by_cases hw : now - 86400 ≤ t ∧ t ≤ now + 86400
          · refine ⟨j :: fl, ?_⟩
            simp only [get_failed_jobs_tz, hp]
            rw [if_neg hs, if_pos hw, hfl]
            rfl
          · refine ⟨fl, ?_⟩
            simp only [get_failed_jobs_tz, hp]
            rw [if_neg hs, if_neg hw]
            exact hfl

/-- Helper: one unfolding step of the approved filter-based
`get_failed_jobs`. -/
theorem get_failed_jobs_cons (parse' : Option String → Option Int) (now : Int)
    (j : Job) (rest : List Job) :
    get_failed_jobs parse' now (j :: rest)
      = if (match parse' j.lastRun with
            | none => false
            | some lr =>
              decide (j.lastResult ≠ some (PyVal.str "Success")) &&
                (decide (now - 86400 ≤ lr) && decide (lr ≤ now + 86400)))
        then j :: get_failed_jobs parse' now rest
        else get_failed_jobs parse' now rest := by
  simp only [get_failed_jobs, List.filter_cons]

/-- The approved integer-timestamp `get_failed_jobs` is exactly the
restriction of `get_failed_jobs_tz` to aware parses. -/
theorem get_failed_jobs_tz_aware (parse' : Option String → Option Int)
    (now : Int) (jobs : List Job) :
    get_failed_jobs_tz (fun s => (parse' s).map PyDatetime.aware) now jobs
      = Except.ok (get_failed_jobs parse' now jobs) := by
  induction jobs with
  | nil => rfl
  | cons j rest ih =>
    rw [get_failed_jobs_cons]
    cases hp : parse' j.lastRun with
    | none =>
      rw [if_neg (by simp [hp])]
      simp only [get_failed_jobs_tz, hp, Option.map_none']
      exact ih
    | some t =>
      by_cases hs : j.lastResult = some (PyVal.str "Success")
      · rw [if_neg (by simp [hp, hs])]
        simp only [get_failed_jobs_tz, hp, Option.map_some']
        rw [if_pos hs]
        exact ih
      · by_cases hw : now - 86400 ≤ t ∧ t ≤ now + 86400
        · rw [if_pos (by simp [hp, hs, hw.1, hw.2])]
          simp only [get_failed_jobs_tz, hp, Option.map_some']
          rw [if_neg hs, if_pos hw, ih]
          rfl
        · rw [if_neg (by simp [hp, hs]; omega)]
          simp only [get_failed_jobs_tz, hp, Option.map_some']
          rw [if_neg hs, if_neg hw]
          exact ih

/-- A parsable but timezone-naive `lastRun` on a non-`"Success"` job
raises an uncaught `TypeError` at line 167 (the comparison is outside
the `try`). -/
theorem get_failed_jobs_tz_naive_raises :
    get_failed_jobs_tz (fun _ => some (PyDatetime.naive 0)) 0
        [⟨some (PyVal.str "J"), some (PyVal.str "Failed"),
          some "2024-01-01T00:00:00", none⟩]
      = Except.error PyError.typeError := rfl

/-- A transport exception from `requests.post` propagates uncaught
through the request path even with a cached token and expiry. -/
theorem mar_net_transport_raises :
    make_authenticated_request_net (α := Nat)
        (Except.error PyError.connectionError)
        (Except.error PyError.connectionError) 5
        ⟨some "tok", none, some 0⟩ none
      = Except.error PyError.connectionError := rfl

/-- Claim C9 (amended): on documented failure inputs, report building
completes without an uncaught exception and produces a (partial)
report whenever every job carries a `lastResult`, no non-`"Success"`
job's `lastRun` parses to a timezone-naive datetime, every detected
failed job carries a `name`, and the repositories' `capacityGB` /
`usedSpaceGB` values are numeric or absent (malformed timestamps are
silently skipped and missing repository fields defaulted); and the
authenticated-request path completes without an uncaught exception
whenever both transports deliver responses and a cached token comes
with a cached expiry.  (A job lacking `lastResult`, a failed job
lacking `name`, a naive timestamp on a non-`"Success"` job, and a
transport exception each make the run raise instead.) -/
theorem report_partial_on_failure
    (parse : Option String → Option PyDatetime) (now : Int)
    (jobs : List Job) (repos : List Repo)
    (hres : ∀ j ∈ jobs, j.lastResult.isSome = true)
    (htz : ∀ j ∈ jobs, j.lastResult ≠ some (PyVal.str "Success") →
        ∀ t, parse j.lastRun ≠ some (PyDatetime.naive t))
    (hname : ∀ fl, get_failed_jobs_tz parse now jobs = Except.ok fl →
        ∀ j ∈ fl, j.name.isSome = true)
    (hrepo : ∀ r ∈ repos, numericOrAbsent r.capacityGB = true ∧
        numericOrAbsent r.usedSpaceGB = true) :
    (∃ rep, generate_report_text_tz parse now jobs repos = Except.ok rep) ∧
    (∀ {α : Type} (a : AuthResponse) (g : Nat × α) (n : Int)
        (st : TokenState) (fs : FileSys),
      st.access_token = none ∨ st.token_expiry.isSome = true →
      ∃ r, make_authenticated_request_net (Except.ok a) (Except.ok g) n st fs
              = Except.ok r) := by
  constructor
  · obtain ⟨ss, hss⟩ := mapM_ok statusOf jobs (fun j hj => by
      obtain ⟨v, hv⟩ := Option.isSome_iff_exists.mp (hres j hj)
      exact ⟨v, by simp [statusOf, hv, pyPure]⟩)
    obtain ⟨fl, hfl⟩ := get_failed_jobs_tz_ok parse now jobs htz
    obtain ⟨es, hes⟩ := mapM_ok repoEntry repos
      (fun r hr => repoEntry_ok r (hrepo r hr).1 (hrepo r hr).2)
    obtain ⟨ds, hds⟩ := mapM_ok detailOf fl (fun j hj => by
      obtain ⟨v, hv⟩ := Option.isSome_iff_exists.mp (hname fl hfl j hj)
      exact ⟨FailedDetail.mk v (j.message.getD (PyVal.str "No details available")),
        by simp [detailOf, hv, pyPure]⟩)
    simp only [generate_report_text_tz, hss, hfl, hes, hds, pyBind_ok, pyPure]
    by_cases hc : fl.length ≠ 0
    · rw [if_pos hc]
      exact ⟨_, rfl⟩
    · rw [if_neg hc]
      exact ⟨_, rfl⟩
  · intro α a g n st fs h
    obtain ⟨gs, gb⟩ := g
    rw [mar_net_ok]
    exact mar_ok_of_consistent a gs gb n st fs h

/-- Witness for the amended C9: the spec's own scenario (one Success
job, one healthy repository) yields a report with no exception. -/
theorem report_partial_on_failure_witness :
    ∃ rep, generate_report_text_tz (fun _ => none) 0
        [⟨some (PyVal.str "A"), some (PyVal.str "Success"), none, none⟩]
        [⟨some (PyVal.str "R1"), none, some (PyVal.num 1024), none,
          some (PyVal.num 512)⟩]
      = Except.ok rep :=
  (report_partial_on_failure (fun _ => none) 0 _ _
      (by decide)
      (by intro j hj hs t; simp)
      (by
        intro fl hfl
        have hfl' : fl = [] := by
          simpa [get_failed_jobs_tz] using hfl.symm
        subst hfl'
        intro j hj
        cases hj)
      (by decide)).1
